import Mathlib

/-!
Shallow embedding of `src/amicleaner/fetch.py` (class `Fetcher`) from the
aws-amicleaner repository, together with theorems checking the spec claims.

Python dictionaries returned by the AWS SDK are modelled as structures whose
fields carry exactly the keys the source reads; a key read with `.get(k)`
(no default) becomes an `Option` field, a key read with `.get(k, d)` becomes
an `Option` field consumed through `Option.getD d`.  Calling `.get` on the
result of a `.get` that returned `None` raises `AttributeError` in Python;
code that can do so is embedded in the `Except String` monad with error
value "AttributeError".  The remote listing calls are modelled as reads of
an `Env` record holding the account inventory; a listing call filtered by a
name list returns the records whose name belongs to the list.
-/

/-- Launch-template specification dictionary, nested under the
mixed-instances-policy shape: keys LaunchTemplateName and Version. -/
structure LaunchTemplateSpec where
  LaunchTemplateName : Option String
  Version : Option String
deriving DecidableEq

/-- Launch-template reference dictionary as read by the helper functions:
the direct shape carries LaunchTemplateName and LaunchTemplateVersion at top
level, the mixed-instances-policy shape nests them under
LaunchTemplateSpecification. -/
structure LaunchTemplateRef where
  LaunchTemplateName : Option String
  LaunchTemplateVersion : Option String
  LaunchTemplateSpecification : Option LaunchTemplateSpec
deriving DecidableEq

/-- Empty Python dictionary in launch-template-reference position. -/
def emptyLtRef : LaunchTemplateRef := ⟨none, none, none⟩

/-- MixedInstancesPolicy dictionary: the source reads only its
LaunchTemplate key. -/
structure MixedInstancesPolicyRec where
  LaunchTemplate : Option LaunchTemplateRef
deriving DecidableEq

/-- AutoScalingGroup record from describe_auto_scaling_groups, restricted to
the keys the source reads.  The plural key LaunchConfigurationNames is kept
because line 110 of the source reads it, even though the AWS response shape
only ever carries the singular key. -/
structure AutoScalingGroup where
  LaunchConfigurationName : Option String
  LaunchConfigurationNames : Option (List String)
  DesiredCapacity : Option Nat
  LaunchTemplate : Option LaunchTemplateRef
  MixedInstancesPolicy : Option MixedInstancesPolicyRec
deriving DecidableEq

/-- LaunchConfiguration record from describe_launch_configurations. -/
structure LaunchConfiguration where
  LaunchConfigurationName : Option String
  ImageId : Option String
deriving DecidableEq

/-- LaunchTemplate record from describe_launch_templates. -/
structure LaunchTemplateRecord where
  LaunchTemplateName : Option String
deriving DecidableEq

/-- LaunchTemplateData dictionary inside a launch-template version. -/
structure LaunchTemplateData where
  ImageId : Option String
deriving DecidableEq

/-- Launch-template version record from describe_launch_template_versions.
The source reads only LaunchTemplateData; VersionNumber is carried so that
statements can name which version holds which image. -/
structure LaunchTemplateVersionRecord where
  LaunchTemplateData : Option LaunchTemplateData
  VersionNumber : Option Nat
deriving DecidableEq

/-- Compute-instance record: the source reads ImageId, and the remote
filter matches on the instance-state-name attribute. -/
structure InstanceRec where
  ImageId : Option String
  InstanceStateName : String
deriving DecidableEq

/-- Reservation record from describe_instances. -/
structure Reservation where
  Instances : Option (List InstanceRec)
deriving DecidableEq

/-- Remote account inventory backing the listing calls.  Each fetch method
is a pure function of this record, mirroring the request/response mapping of
the source.  launchTemplateVersions gives, per template name, the version
records that describe_launch_template_versions returns for that name. -/
structure Env where
  autoScalingGroups : List AutoScalingGroup
  launchConfigurations : List LaunchConfiguration
  launchTemplates : List LaunchTemplateRecord
  launchTemplateVersions : String → List LaunchTemplateVersionRecord
  reservations : List Reservation

/-- Name of a launch configuration as the source reads it:
lc.get with key LaunchConfigurationName and default the empty string. -/
def lcName (lc : LaunchConfiguration) : String :=
  lc.LaunchConfigurationName.getD ""

/-- Remote call describe_launch_configurations filtered by a name list:
returns the configurations whose name is in the list. -/
def describeLaunchConfigurations (env : Env) (names : List String) :
    List LaunchConfiguration :=
  env.launchConfigurations.filter (fun lc => decide (lcName lc ∈ names))

/-- Launch-configuration names used by scaling groups (fetch.py lines
46-49): per group, key LaunchConfigurationName with default empty string. -/
def lcUsedNames (env : Env) : List String :=
  env.autoScalingGroups.map (fun asg => asg.LaunchConfigurationName.getD "")

/-- All existing launch-configuration names (fetch.py lines 51-55). -/
def lcAllNames (env : Env) : List String :=
  env.launchConfigurations.map lcName

/-- The unused_lcs value of fetch_unattached_lc (fetch.py line 57): the
Python set difference set(all_lcs) - set(used_lc), as a duplicate-free
list. -/
def unattachedLcNames (env : Env) : List String :=
  (lcAllNames env).dedup.filter (fun n => decide (n ∉ lcUsedNames env))

/-- fetch_unattached_lc (fetch.py lines 38-65): image ids of launch
configurations not attached to any scaling group.  The final list keeps the
result of lc.get with key ImageId and no default, hence Option entries. -/
def fetch_unattached_lc (env : Env) : List (Option String) :=
  (describeLaunchConfigurations env (unattachedLcNames env)).map
    (fun lc => lc.ImageId)

/-- C1: fetch_unattached_lc queries exactly the names in all minus used and
returns the image id of each configuration so queried, up to set
equality. -/
theorem fetch_unattached_lc_set_algebra (env : Env) :
    (∀ n : String, n ∈ unattachedLcNames env ↔
      n ∈ lcAllNames env ∧ n ∉ lcUsedNames env) ∧
    (∀ x : Option String, x ∈ fetch_unattached_lc env ↔
      ∃ lc, lc ∈ env.launchConfigurations ∧ lcName lc ∈ lcAllNames env ∧
        lcName lc ∉ lcUsedNames env ∧ x = lc.ImageId) := by
  constructor
  · intro n
    simp [unattachedLcNames, List.mem_filter, List.mem_dedup]
  · intro x
    constructor
    · intro hx
      rcases List.mem_map.mp hx with ⟨lc, hlc, himg⟩
      rcases List.mem_filter.mp hlc with ⟨hmem, hcond⟩
      have hn : lcName lc ∈ unattachedLcNames env := of_decide_eq_true hcond
      have := (List.mem_filter.mp hn)
      refine ⟨lc, hmem, ?_, ?_, himg.symm⟩
      · exact List.mem_dedup.mp this.1
      · exact of_decide_eq_true this.2
    · rintro ⟨lc, hmem, hall, hused, hx⟩
      have hn : lcName lc ∈ unattachedLcNames env := by
        refine List.mem_filter.mpr ⟨List.mem_dedup.mpr hall, ?_⟩
        exact decide_eq_true hused
      refine List.mem_map.mpr ⟨lc, ?_, hx.symm⟩
      exact List.mem_filter.mpr ⟨hmem, decide_eq_true hn⟩

/-- Launch-template names used by scaling groups (fetch.py lines 74-78):
per group, asg.get with key LaunchTemplate and default the empty
dictionary, then key LaunchTemplateName with no default — an entry is none
when the group has no direct launch-template reference. -/
def ltUsedNames (env : Env) : List (Option String) :=
  env.autoScalingGroups.map
    (fun asg => (asg.LaunchTemplate.getD emptyLtRef).LaunchTemplateName)

/-- All existing launch-template names (fetch.py lines 80-83). -/
def ltAllNames (env : Env) : List String :=
  env.launchTemplates.map (fun lt => lt.LaunchTemplateName.getD "")

/-- The unused_lts value of fetch_unattached_lt (fetch.py line 85): the
Python set difference set(all_lts) - set(used_lt), as a duplicate-free
list; the None entries of used_lt never match a string name. -/
def unusedLtNames (env : Env) : List String :=
  (ltAllNames env).dedup.filter (fun n => decide (some n ∉ ltUsedNames env))

/-- Image ids of every version of the named launch template, as read on
fetch.py lines 92-95 and 147-150: per version record, key
LaunchTemplateData with default the empty dictionary, then key ImageId with
no default. -/
def versionImages (env : Env) (n : String) : List (Option String) :=
  (env.launchTemplateVersions n).map
    (fun v => (v.LaunchTemplateData.getD ⟨none⟩).ImageId)

/-- fetch_unattached_lt (fetch.py lines 67-97).  The Python code appends
one generator per unused template name to the amis list, so the returned
value is a nested collection: one inner sequence of version image ids per
unused template. -/
def fetch_unattached_lt (env : Env) : List (List (Option String)) :=
  (unusedLtNames env).map (versionImages env)

/-- Shared characterization of the flattened contents of
fetch_unattached_lt: an id is collected exactly when it is a version image
of an existing template name that no scaling group uses directly. -/
theorem mem_fetch_unattached_lt_flatten (env : Env) (x : Option String) :
    x ∈ (fetch_unattached_lt env).flatten ↔
      ∃ n, n ∈ ltAllNames env ∧ some n ∉ ltUsedNames env ∧
        x ∈ versionImages env n := by
  rw [List.mem_flatten]
  constructor
  · rintro ⟨l, hl, hx⟩
    rcases List.mem_map.mp hl with ⟨n, hn, hmap⟩
    rcases List.mem_filter.mp hn with ⟨hdedup, hcond⟩
    exact ⟨n, List.mem_dedup.mp hdedup, of_decide_eq_true hcond, hmap ▸ hx⟩
  · rintro ⟨n, hall, hused, hx⟩
    refine ⟨versionImages env n, List.mem_map.mpr ⟨n, ?_, rfl⟩, hx⟩
    exact List.mem_filter.mpr ⟨List.mem_dedup.mpr hall, decide_eq_true hused⟩

/-- C4: every version image of an unused launch template is contained in
the (flattened) result of fetch_unattached_lt, not only the latest. -/
theorem fetch_unattached_lt_collects_all_versions (env : Env) (n : String)
    (v : LaunchTemplateVersionRecord)
    (hn : n ∈ unusedLtNames env)
    (hv : v ∈ env.launchTemplateVersions n) :
    (v.LaunchTemplateData.getD ⟨none⟩).ImageId ∈
      (fetch_unattached_lt env).flatten := by
  rcases List.mem_filter.mp hn with ⟨hdedup, hcond⟩
  refine (mem_fetch_unattached_lt_flatten env _).mpr
    ⟨n, List.mem_dedup.mp hdedup, of_decide_eq_true hcond, ?_⟩
  exact List.mem_map.mpr ⟨v, hv, rfl⟩

/-- Version record with version number 1 and image ami-D. -/
def vRecD : LaunchTemplateVersionRecord := ⟨some ⟨some "ami-D"⟩, some 1⟩

/-- Version record with version number 2 and image ami-E. -/
def vRecE : LaunchTemplateVersionRecord := ⟨some ⟨some "ami-E"⟩, some 2⟩

/-- Environment with a single launch template t that no scaling group
uses, carrying two versions with images ami-D and ami-E. -/
def envC4 : Env :=
  ⟨[], [], [⟨some "t"⟩], fun n => if n = "t" then [vRecD, vRecE] else [], []⟩

/-- Witness for C4: in envC4 the unused template t has versions with
images ami-D and ami-E, and both appear in the flattened result. -/
theorem fetch_unattached_lt_collects_all_versions_witness :
    (some "ami-D") ∈ (fetch_unattached_lt envC4).flatten ∧
    (some "ami-E") ∈ (fetch_unattached_lt envC4).flatten :=
  ⟨fetch_unattached_lt_collects_all_versions envC4 "t" vRecD
      (by decide) (by decide),
    fetch_unattached_lt_collects_all_versions envC4 "t" vRecE
      (by decide) (by decide)⟩

/-- Modelled from the words of claim C9: the set of template names used by
any scaling group minus the set of all existing template names.  This is
the difference in the direction the claim states it; the source computes
the opposite difference. -/
def usedMinusAllLtNames (env : Env) : List (Option String) :=
  (ltUsedNames env).dedup.filter
    (fun o => decide (o ∉ (ltAllNames env).map some))

/-- Environment refuting C9 as stated: one scaling group uses template t1
directly, templates t1 and t2 exist, and t2 has one version with image
ami-E. -/
def envC9 : Env :=
  ⟨[⟨none, none, some 1, some ⟨some "t1", none, none⟩, none⟩],
    [], [⟨some "t1"⟩, ⟨some "t2"⟩],
    fun n => if n = "t2" then [⟨some ⟨some "ami-E"⟩, some 1⟩] else [], []⟩

/-- Counterexample to C9: the used-minus-all difference named by the claim
is empty on envC9, so the claim would force an empty result, yet
fetch_unattached_lt returns the image of t2 — the code computes all minus
used. -/
theorem fetch_unattached_lt_direction_counterexample :
    usedMinusAllLtNames envC9 = [] ∧
    unusedLtNames envC9 = ["t2"] ∧
    fetch_unattached_lt envC9 = [[some "ami-E"]] := by
  refine ⟨by decide, by decide, by decide⟩

/-- C9 amended: fetch_unattached_lt computes the unused template names as
all existing template names minus the names used by any scaling group via
the direct field only, and returns image ids exactly for the templates in
that difference; a template referenced solely through a mixed-instances
policy is not counted as used. -/
theorem fetch_unattached_lt_all_minus_used (env : Env) :
    (∀ n : String, n ∈ unusedLtNames env ↔
      n ∈ ltAllNames env ∧ some n ∉ ltUsedNames env) ∧
    (∀ x : Option String, x ∈ (fetch_unattached_lt env).flatten ↔
      ∃ n, n ∈ ltAllNames env ∧ some n ∉ ltUsedNames env ∧
        x ∈ versionImages env n) ∧
    (∀ asg : AutoScalingGroup, asg ∈ env.autoScalingGroups →
      asg.LaunchTemplate = none →
      (asg.LaunchTemplate.getD emptyLtRef).LaunchTemplateName = none) := by
  refine ⟨?_, fun x => mem_fetch_unattached_lt_flatten env x, ?_⟩
  · intro n
    simp [unusedLtNames, List.mem_filter, List.mem_dedup]
  · intro asg _ h
    simp [h, emptyLtRef]

/-- The zeroed_lcs value of fetch_zeroed_asg_lc (fetch.py lines 106-111):
names of groups whose desired capacity (default 0) equals 0 and whose
LaunchConfigurationNames list (plural key, default empty) is nonempty. -/
def zeroedLcNames (env : Env) : List String :=
  (env.autoScalingGroups.filter
    (fun asg => asg.DesiredCapacity.getD 0 == 0 &&
      decide (0 < (asg.LaunchConfigurationNames.getD []).length))).map
    (fun asg => asg.LaunchConfigurationName.getD "")

/-- fetch_zeroed_asg_lc (fetch.py lines 99-119): image ids (default empty
string) of the launch configurations named by zero-capacity groups that
pass the plural-key guard. -/
def fetch_zeroed_asg_lc (env : Env) : List String :=
  (describeLaunchConfigurations env (zeroedLcNames env)).map
    (fun lc => lc.ImageId.getD "")

/-- Scaling group with desired capacity 0 and a valid launch-configuration
reference under the singular key, in the AWS response shape where the
plural key LaunchConfigurationNames is never present. -/
def asgC3 : AutoScalingGroup := ⟨some "lc1", none, some 0, none, none⟩

/-- Environment for C3: the zero-capacity group asgC3 references
configuration lc1, which exists and resolves to image ami-B. -/
def envC3 : Env :=
  ⟨[asgC3], [⟨some "lc1", some "ami-B"⟩], [], fun _ => [], []⟩

/-- C3 failing input: asgC3 has desired capacity 0 and its reference lc1
resolves to ami-B, yet fetch_zeroed_asg_lc returns nothing, because the
guard on line 110 reads the plural key LaunchConfigurationNames, which is
absent from scaling-group records, instead of the singular key it extracts
on line 107. -/
theorem fetch_zeroed_asg_lc_drops_valid_reference :
    asgC3.DesiredCapacity.getD 0 = 0 ∧
    asgC3.LaunchConfigurationName = some "lc1" ∧
    (describeLaunchConfigurations envC3 ["lc1"]).map
      (fun lc => lc.ImageId.getD "") = ["ami-B"] ∧
    fetch_zeroed_asg_lc envC3 = [] := by
  refine ⟨rfl, rfl, by decide, by decide⟩

/-- getLaunchTemplate (fetch.py lines 180-191): the reference is read from
the direct LaunchTemplate key, else from under MixedInstancesPolicy.  When
the group carries no MixedInstancesPolicy key, the Python elif calls .get
on None and raises AttributeError. -/
def getLaunchTemplate (asg : AutoScalingGroup) :
    Except String LaunchTemplateRef :=
  match asg.LaunchTemplate with
  | some lt => .ok lt
  | none =>
    match asg.MixedInstancesPolicy with
    | none => .error "AttributeError"
    | some mip =>
      match mip.LaunchTemplate with
      | some lt => .ok lt
      | none => .ok emptyLtRef

/-- getLaunchTemplateName (fetch.py lines 193-202): the name is read from
the top-level LaunchTemplateName key, else from under
LaunchTemplateSpecification, defaulting to the empty string; a reference
with neither key raises AttributeError at the .get on None. -/
def getLaunchTemplateName (lt : LaunchTemplateRef) : Except String String :=
  match lt.LaunchTemplateName with
  | some n => .ok n
  | none =>
    match lt.LaunchTemplateSpecification with
    | none => .error "AttributeError"
    | some s =>
      match s.LaunchTemplateName with
      | some n => .ok n
      | none => .ok ""

/-- getLaunchTemplateVersion (fetch.py lines 204-213): the version is read
from the top-level LaunchTemplateVersion key, else from the Version key
under LaunchTemplateSpecification, defaulting to the empty string; a
reference with neither shape raises AttributeError at the .get on None. -/
def getLaunchTemplateVersion (lt : LaunchTemplateRef) :
    Except String String :=
  match lt.LaunchTemplateVersion with
  | some v => .ok v
  | none =>
    match lt.LaunchTemplateSpecification with
    | none => .error "AttributeError"
    | some s =>
      match s.Version with
      | some v => .ok v
      | none => .ok ""

/-- fetch_zeroed_asg_lt (fetch.py lines 121-152): for groups with desired
capacity 0, resolve the launch-template reference, its name and its
version; then, per group, query all versions of the named template and
append the sequence of every version image id.  The resolved versions are
computed but never passed to describe_launch_template_versions (the source
comments on line 145 that the Versions parameter is omitted), and the
result of describe_launch_templates on line 139 is discarded. -/
def fetch_zeroed_asg_lt (env : Env) :
    Except String (List (List (Option String))) := do
  let zeroed := env.autoScalingGroups.filter
    (fun asg => asg.DesiredCapacity.getD 0 == 0)
  let zeroed_lts ← zeroed.mapM getLaunchTemplate
  let zeroed_lt_names ← zeroed_lts.mapM getLaunchTemplateName
  let zeroed_lt_versions ← zeroed_lts.mapM getLaunchTemplateVersion
  return (zeroed_lt_names.zip zeroed_lt_versions).map
    (fun p => versionImages env p.1)

/-- Scaling group with neither a launch-configuration reference nor a
launch-template reference in any shape: every optional key is absent, as
for a freshly described group with no template fields. -/
def asgC2 : AutoScalingGroup := ⟨none, none, none, none, none⟩

/-- Environment for C2: a single zero-capacity group with no reference of
either kind. -/
def envC2 : Env := ⟨[asgC2], [], [], fun _ => [], []⟩

/-- C2 failing input: on a group with neither a direct LaunchTemplate nor
a MixedInstancesPolicy key, getLaunchTemplate raises AttributeError (the
elif on fetch.py line 188 calls .get on None), and fetch_zeroed_asg_lt
propagates the exception instead of contributing zero entries. -/
theorem getLaunchTemplate_raises_without_references :
    asgC2.LaunchTemplate = none ∧
    asgC2.MixedInstancesPolicy = none ∧
    getLaunchTemplate asgC2 = Except.error "AttributeError" ∧
    fetch_zeroed_asg_lt envC2 = Except.error "AttributeError" :=
  ⟨rfl, rfl, rfl, rfl⟩

/-- Launch-template reference in the direct shape: name and version at top
level, as read by the first branches of the helpers. -/
def directLtRef (n v : String) : LaunchTemplateRef := ⟨some n, some v, none⟩

/-- Launch-template reference in the mixed-instances-policy shape: name
and version nested under LaunchTemplateSpecification. -/
def mipLtRef (n v : String) : LaunchTemplateRef :=
  ⟨none, none, some ⟨some n, some v⟩⟩

/-- Scaling group carrying the reference in the direct field. -/
def asgDirect (n v : String) : AutoScalingGroup :=
  ⟨none, none, some 0, some (directLtRef n v), none⟩

/-- Scaling group carrying the equivalent reference nested under a
mixed-instances policy. -/
def asgMip (n v : String) : AutoScalingGroup :=
  ⟨none, none, some 0, none, some ⟨some (mipLtRef n v)⟩⟩

/-- C5: for any name and version, a group with a direct launch-template
reference and an equivalent group with the reference nested under a
mixed-instances policy resolve through getLaunchTemplate,
getLaunchTemplateName and getLaunchTemplateVersion to the same effective
template name and the same effective version. -/
theorem dual_shape_resolution (n v : String) :
    (getLaunchTemplate (asgDirect n v) >>= getLaunchTemplateName) =
      Except.ok n ∧
    (getLaunchTemplate (asgMip n v) >>= getLaunchTemplateName) =
      Except.ok n ∧
    (getLaunchTemplate (asgDirect n v) >>= getLaunchTemplateVersion) =
      Except.ok v ∧
    (getLaunchTemplate (asgMip n v) >>= getLaunchTemplateVersion) =
      Except.ok v :=
  ⟨rfl, rfl, rfl, rfl⟩

/-- Reference of the zero-capacity group of envC8: template t, with the
version explicitly specified as 1. -/
def ltRefC8 : LaunchTemplateRef := ⟨some "t", some "1", none⟩

/-- Version record 1 of template t, with image ami-A. -/
def vRecC8A : LaunchTemplateVersionRecord := ⟨some ⟨some "ami-A"⟩, some 1⟩

/-- Version record 2 of template t, with image ami-B. -/
def vRecC8B : LaunchTemplateVersionRecord := ⟨some ⟨some "ami-B"⟩, some 2⟩

/-- Environment for C8: one zero-capacity group referencing version 1 of
template t, which has two versions with distinct images. -/
def envC8 : Env :=
  ⟨[⟨none, none, some 0, some ltRefC8, none⟩], [], [⟨some "t"⟩],
    fun n => if n = "t" then [vRecC8A, vRecC8B] else [], []⟩

/-- C8 failing input: the reference of the group specifies version 1,
whose image is ami-A, and the version resolves through
getLaunchTemplateVersion; yet fetch_zeroed_asg_lt returns the images of
every version of template t (the Versions parameter is never passed, as
the source comment on line 145 admits), not exactly the specified one. -/
theorem fetch_zeroed_asg_lt_ignores_specified_version :
    getLaunchTemplateVersion ltRefC8 = Except.ok "1" ∧
    (envC8.launchTemplateVersions "t").filter
      (fun r => r.VersionNumber == some 1) = [vRecC8A] ∧
    vRecC8A.LaunchTemplateData = some ⟨some "ami-A"⟩ ∧
    fetch_zeroed_asg_lt envC8 = Except.ok [[some "ami-A", some "ami-B"]] :=
  ⟨rfl, by decide, rfl, rfl⟩

/-- Values of the instance-state-name filter passed to describe_instances
(fetch.py lines 158-171). -/
def instanceStateFilterValues : List String :=
  ["pending", "running", "shutting-down", "stopping", "stopped"]

/-- Remote call describe_instances with an instance-state-name filter: each
reservation keeps the instances whose state is among the filter values. -/
def describeInstances (env : Env) (states : List String) :
    List Reservation :=
  env.reservations.map (fun r =>
    ⟨some ((r.Instances.getD []).filter
      (fun i => decide (i.InstanceStateName ∈ states)))⟩)

/-- fetch_instances (fetch.py lines 154-178): one entry per returned
instance, holding i.get with key ImageId and default None. -/
def fetch_instances (env : Env) : List (Option String) :=
  (describeInstances env instanceStateFilterValues).flatMap
    (fun r => (r.Instances.getD []).map (fun i => i.ImageId))

/-- Instances of the environment whose state passes the filter of
fetch_instances; these are the records the function maps over. -/
def activeInstances (env : Env) : List InstanceRec :=
  env.reservations.flatMap (fun r =>
    (r.Instances.getD []).filter
      (fun i => decide (i.InstanceStateName ∈ instanceStateFilterValues)))

/-- Shared lemma: fetch_instances extracts the ImageId field of each
filtered instance, in order. -/
theorem fetch_instances_eq_map (env : Env) :
    fetch_instances env = (activeInstances env).map (fun i => i.ImageId) := by
  simp only [fetch_instances, activeInstances, describeInstances,
    List.flatMap_map, List.map_flatMap, Function.comp, Option.getD_some]

/-- Counterexample part of C6: the instance-state filter of
fetch_instances holds five values, not six. -/
theorem instance_state_filter_not_six :
    instanceStateFilterValues.length = 5 ∧
    instanceStateFilterValues.length ≠ 6 := by
  decide

/-- C6 amended: fetch_instances filters to the five non-terminated
lifecycle states; an instance in state terminated never contributes its
image id, and an instance in any of the five listed states contributes
its image id. -/
theorem fetch_instances_active_states (env : Env) :
    ("terminated" ∉ instanceStateFilterValues ∧
      instanceStateFilterValues.length = 5) ∧
    (∀ x : Option String, x ∈ fetch_instances env ↔
      ∃ r, r ∈ env.reservations ∧ ∃ i, i ∈ r.Instances.getD [] ∧
        i.InstanceStateName ∈ instanceStateFilterValues ∧ x = i.ImageId) := by
  refine ⟨by decide, fun x => ?_⟩
  rw [fetch_instances_eq_map]
  constructor
  · intro hx
    rcases List.mem_map.mp hx with ⟨i, hi, himg⟩
    rcases List.mem_flatMap.mp hi with ⟨r, hr, hfil⟩
    rcases List.mem_filter.mp hfil with ⟨hmem, hst⟩
    exact ⟨r, hr, i, hmem, of_decide_eq_true hst, himg.symm⟩
  · rintro ⟨r, hr, i, hmem, hst, hx⟩
    refine List.mem_map.mpr ⟨i, List.mem_flatMap.mpr ⟨r, hr, ?_⟩, hx.symm⟩
    exact List.mem_filter.mpr ⟨hmem, decide_eq_true hst⟩

/-- Environment for C7: a single reservation holding one running instance
that lacks an image identifier. -/
def envC7 : Env := ⟨[], [], [], fun _ => [], [⟨some [⟨none, "running"⟩]⟩]⟩

/-- Counterexample to C7: the id-less running instance is not skipped;
fetch_instances returns a one-entry list holding the None placeholder
rather than the empty list the claim requires. -/
theorem fetch_instances_missing_image_not_skipped :
    fetch_instances envC7 = [none] ∧ fetch_instances envC7 ≠ [] := by
  refine ⟨by decide, by decide⟩

/-- Counting lemma: mapping a function over a list turns the count of a
value into the number of elements sent to it. -/
theorem count_map_eq_length_filter {α β : Type} [BEq β] (f : α → β)
    (l : List α) (b : β) :
    (l.map f).count b = (l.filter (fun x => f x == b)).length := by
  induction l with
  | nil => rfl
  | cons a t ih =>
    simp only [List.map_cons, List.count_cons, List.filter_cons]
    cases h : f a == b <;> simp [h, ih]

/-- C7 amended: an instance record lacking an image identifier is not an
error and is not dropped: each such filtered record contributes exactly one
None entry to the result of fetch_instances. -/
theorem fetch_instances_missing_image_placeholder (env : Env) :
    (fetch_instances env).count none =
      ((activeInstances env).filter (fun i => i.ImageId == none)).length := by
  rw [fetch_instances_eq_map]
  exact count_map_eq_length_filter _ _ _

/-- C10: fetch_instances, fetch_unattached_lc and fetch_zeroed_asg_lc
preserve multiplicity: an image id occurs once per matching source record,
with no deduplication. -/
theorem fetch_results_preserve_multiplicity (env : Env) (a : String) :
    (fetch_instances env).count (some a) =
      ((activeInstances env).filter
        (fun i => i.ImageId == some a)).length ∧
    (fetch_unattached_lc env).count (some a) =
      ((describeLaunchConfigurations env (unattachedLcNames env)).filter
        (fun lc => lc.ImageId == some a)).length ∧
    (fetch_zeroed_asg_lc env).count a =
      ((describeLaunchConfigurations env (zeroedLcNames env)).filter
        (fun lc => lc.ImageId.getD "" == a)).length := by
  refine ⟨?_, ?_, ?_⟩
  · rw [fetch_instances_eq_map]
    exact count_map_eq_length_filter _ _ _
  · exact count_map_eq_length_filter _ _ _
  · exact count_map_eq_length_filter _ _ _
